import Mathlib

/-!
Shallow embedding of `src/housing_analysis.py` (a one-shot pandas analysis
script) and verification of its specification.

Modelling conventions:
* A pandas cell is a `Value`: missing (`NaN`), a number (exact `ℚ` in place
  of float), or a string.
* A `DataFrame` is an ordered list of named columns.
* A numeric series is a `List (Option ℚ)`; `none` is a missing value.
* Statistical "NaN" results are `none` in an `Option`; fallible operations
  return `Except`, mirroring Python exceptions.
-/

namespace Housing

/-- A single cell of the table: missing, numeric, or string. -/
inductive Value where
  | na : Value
  | num : ℚ → Value
  | str : String → Value
deriving DecidableEq, Repr

/-- In-memory columnar table: ordered named columns (embeds `pd.DataFrame`). -/
structure DataFrame where
  cols : List (String × List Value)
deriving DecidableEq, Repr

/-- Column names, in order (embeds `df.columns`). -/
def DataFrame.columns (df : DataFrame) : List String :=
  df.cols.map Prod.fst

/-- Column access by name (embeds `df["name"]`; names are unique by the
Table invariant, so the first match is the column). -/
def DataFrame.getCol (df : DataFrame) (name : String) : List Value :=
  (((df.cols.find? (fun c => decide (c.1 = name)))).map Prod.snd).getD []

/-- Numeric view of a cell: `some` for numbers, `none` for anything missing. -/
def Value.toNum : Value → Option ℚ
  | Value.num q => some q
  | _ => none

/-- A numeric series with missing entries. -/
abbrev NumCol := List (Option ℚ)

/-- Numeric view of a named column. -/
def DataFrame.numCol (df : DataFrame) (name : String) : NumCol :=
  (df.getCol name).map Value.toNum

/-- Row count (embeds `df.shape[0]`; all columns share one length by the
Table invariant, so the first column's length is the row count). -/
def DataFrame.nrows (df : DataFrame) : ℕ :=
  ((df.cols.head?).map (fun c => c.2.length)).getD 0

/-- Row `i` of the table, one cell per column. -/
def DataFrame.row (df : DataFrame) (i : ℕ) : List Value :=
  df.cols.map (fun c => c.2.getD i Value.na)

/-! ### Configuration constants (lines 24-25 of the source) -/

def DATA_FILE : String := "Housing.csv"

def FIGURE_FILE : String := "area_vs_price.png"

/-! ### Loader (`load_data`, lines 31-39)

The file system is a parameter `fs : String → Option CSVFile`: `fs path`
is the parsed shape of the file at `path` when it exists.
-/

/-- Raw delimited file content: a header row and data rows of cells. -/
structure CSVFile where
  header : List String
  rows : List (List String)
deriving DecidableEq, Repr

/-- Loader error kinds of the spec: `NotFoundError` embeds Python's
`FileNotFoundError`, `ParseError` a `pandas` parsing failure. -/
inductive LoadError where
  | notFound : LoadError
  | parseError : LoadError
deriving DecidableEq, Repr

/-- Modelled from the spec: numeric-literal recognition used by
`pd.read_csv` type inference (src calls the library, whose code is not in
the repository). Accepts an optional sign, digits, and an optional
fractional part. -/
def parseNum (s : String) : Option ℚ :=
  let step := fun (acc : Option ℕ) (c : Char) =>
    acc.bind (fun n => if c.isDigit then some (10 * n + (c.toNat - 48)) else none)
  let digits := fun (cs : List Char) =>
    if cs.isEmpty then (none : Option ℕ) else cs.foldl step (some 0)
  let unsigned := fun (cs : List Char) =>
    let intPart := cs.takeWhile (fun c => c != '.')
    let rest := cs.dropWhile (fun c => c != '.')
    match rest with
    | [] => (digits intPart).map (fun n => (n : ℚ))
    | _ :: frac =>
      (digits intPart).bind (fun n =>
        (digits frac).map (fun m => (n : ℚ) + (m : ℚ) / (10 : ℚ) ^ frac.length))
  match s.data with
  | '-' :: cs => (unsigned cs).map (fun q => -q)
  | cs => unsigned cs

/-- Modelled from the spec: per-column type inference of the Loader
("columns typed by inferring numeric vs. string per column"). A column
whose non-empty cells all parse as numbers becomes numeric with empty
cells missing; otherwise it is a string column with empty cells missing. -/
def inferColumn (cells : List String) : List Value :=
  if cells.all (fun c => c = "" || (parseNum c).isSome) then
    cells.map (fun c =>
      match parseNum c with
      | some q => Value.num q
      | none => Value.na)
  else
    cells.map (fun c => if c = "" then Value.na else Value.str c)

/-- Modelled from the spec: `pd.read_csv` on already-read content. Consistent
field counts give a Table; inconsistent ones are malformed (`ParseError`). -/
def read_csv (f : CSVFile) : Except LoadError DataFrame :=
  if f.rows.all (fun r => r.length = f.header.length) then
    Except.ok ⟨(List.range f.header.length).map (fun i =>
      (f.header.getD i "", inferColumn (f.rows.map (fun r => r.getD i ""))))⟩
  else
    Except.error LoadError.parseError

/-- Embeds `load_data` (lines 31-39): missing path fails with
`NotFoundError` (Python `FileNotFoundError`), otherwise the content is
parsed. -/
def load_data (fs : String → Option CSVFile) (path : String) :
    Except LoadError DataFrame :=
  match fs path with
  | none => Except.error LoadError.notFound
  | some f => read_csv f

/-! ### Validator (`validate_columns`, lines 58-62) -/

/-- Embeds `validate_columns`: collects the required columns absent from
`df.columns` in required-list order; a non-empty list raises (here: returns
as the error payload of) a `KeyError` naming all of them — the spec's
`SchemaError`. -/
def validate_columns (df : DataFrame) (required : List String) :
    Except (List String) Unit :=
  let missing := required.filter (fun col => decide (col ∉ df.columns))
  if missing.isEmpty then Except.ok () else Except.error missing

/-! ### Analyzer -/

/-- Embeds `pd.Series.mean` with its default `skipna=True`: the mean of the
present values, `NaN` (here `none`) when no value is present. -/
def seriesMean (c : NumCol) : Option ℚ :=
  let vs := c.filterMap id
  if vs.length = 0 then none else some (vs.sum / (vs.length : ℚ))

/-- Embeds the group keys produced by `df.groupby("bedrooms")` followed by
`.sort_index()`: the distinct present values of the group column, sorted
ascending (`groupby` drops missing keys by its default `dropna=True`). -/
def groupKeys (g : NumCol) : List ℚ :=
  (g.filterMap id).toFinset.sort (· ≤ ·)

/-- Values of the value column on the rows whose group-column entry is
`some k` — the partition of `groupby` restricted to key `k`. -/
def groupPrices (g v : NumCol) (k : ℚ) : NumCol :=
  (g.zip v).filterMap (fun p => if p.1 = some k then some p.2 else none)

/-- Embeds `avg_price_by_bedrooms` (lines 73-79):
`df.groupby("bedrooms")["price"].mean().sort_index()` as an ordered list of
(key, mean) pairs. -/
def avg_price_by_bedrooms (bedrooms price : NumCol) : List (ℚ × Option ℚ) :=
  (groupKeys bedrooms).map (fun k => (k, seriesMean (groupPrices bedrooms price k)))

/-- Embeds `df.loc[df[flagCol] == label, "price"]`: the value-column entries
on the rows whose flag cell is exactly the string `label` (a missing or
non-string cell never equals a string, as in pandas). -/
def selectPrices (flag : List Value) (price : NumCol) (label : String) : NumCol :=
  (flag.zip price).filterMap
    (fun p => if p.1 = Value.str label then some p.2 else none)

/-- Float subtraction with NaN propagation: defined only when both sides
are. -/
def omSub : Option ℚ → Option ℚ → Option ℚ
  | some a, some b => some (a - b)
  | _, _ => none

/-- Embeds `compare_air_conditioning` (lines 82-91): mean price over the
rows with `airconditioning == "yes"`, over those with `== "no"`, and their
difference. -/
def compare_air_conditioning (flag : List Value) (price : NumCol) :
    Option ℚ × Option ℚ × Option ℚ :=
  let with_ac := seriesMean (selectPrices flag price "yes")
  let without_ac := seriesMean (selectPrices flag price "no")
  (with_ac, without_ac, omSub with_ac without_ac)

/-- Pairwise-complete observations of `pd.Series.corr`: the rows where both
series are present. -/
def validPairs (a b : NumCol) : List (ℚ × ℚ) :=
  (a.zip b).filterMap (fun p =>
    match p with
    | (some x, some y) => some (x, y)
    | _ => none)

/-- Mean of a list of rationals (0 on the empty list, as 0/0). -/
def listMean (l : List ℚ) : ℚ := l.sum / (l.length : ℚ)

/-- Sum of squared deviations from the mean. -/
def sumSqDev (l : List ℚ) : ℚ :=
  (l.map (fun x => (x - listMean l) ^ 2)).sum

/-- Sum of products of deviations of the two coordinates from their means. -/
def sumCrossDev (ps : List (ℚ × ℚ)) : ℚ :=
  (ps.map (fun p =>
    (p.1 - listMean (ps.map Prod.fst)) * (p.2 - listMean (ps.map Prod.snd)))).sum

/-- The exact-arithmetic data of Pearson correlation on the pairwise-complete
rows: `none` exactly in the cases where float evaluation yields NaN (fewer
than 2 valid pairs, or zero variance in either coordinate), otherwise the
triple (cross deviation sum, x squared-deviation sum, y squared-deviation
sum). -/
def corrParts (a b : NumCol) : Option (ℚ × ℚ × ℚ) :=
  if (validPairs a b).length < 2 ∨
      sumSqDev ((validPairs a b).map Prod.fst) = 0 ∨
      sumSqDev ((validPairs a b).map Prod.snd) = 0 then none
  else
    some (sumCrossDev (validPairs a b),
      sumSqDev ((validPairs a b).map Prod.fst),
      sumSqDev ((validPairs a b).map Prod.snd))

/-- Embeds `area_price_correlation` (lines 94-99), that is
`df["area"].corr(df["price"])`: Pearson correlation
`Σ dx·dy / (√(Σ dx²) · √(Σ dy²))` over the pairwise-complete rows, `none`
where floats give NaN. -/
noncomputable def area_price_correlation (a b : NumCol) : Option ℝ :=
  (corrParts a b).map (fun t =>
    (t.1 : ℝ) / (Real.sqrt (t.2.1 : ℚ) * Real.sqrt (t.2.2 : ℚ)))

/-! ### Reporter (`print_dataset_overview`, lines 42-55) -/

/-- The data printed by the overview: shape, column names, first 5 rows,
per-column missing counts. -/
structure Overview where
  nrows : ℕ
  ncols : ℕ
  names : List String
  headRows : List (List Value)
  missingCounts : List (String × ℕ)
deriving DecidableEq, Repr

/-- The overview content computed from a table. -/
def mkOverview (df : DataFrame) : Overview where
  nrows := df.nrows
  ncols := df.cols.length
  names := df.columns
  headRows := (List.range (min 5 df.nrows)).map df.row
  missingCounts := df.cols.map (fun c =>
    (c.1, (c.2.filter (fun v => decide (v = Value.na))).length))

/-- Embeds `print_dataset_overview` as a state-passing step: it produces
output and returns the table as the code leaves it (the source only reads
`df`). -/
def print_dataset_overview (df : DataFrame) : Overview × DataFrame :=
  (mkOverview df, df)

/-! ### Analysis steps as state-passing functions (for the frame claims) -/

/-- Question-1 step: the grouped averages plus the table as left behind. -/
def avg_step (df : DataFrame) : List (ℚ × Option ℚ) × DataFrame :=
  (avg_price_by_bedrooms (df.numCol "bedrooms") (df.numCol "price"), df)

/-- Question-2 step: the comparison triple plus the table as left behind. -/
def compare_step (df : DataFrame) :
    (Option ℚ × Option ℚ × Option ℚ) × DataFrame :=
  (compare_air_conditioning (df.getCol "airconditioning") (df.numCol "price"), df)

/-- Correlation step: the correlation data plus the table as left behind. -/
def corr_step (df : DataFrame) : Option (ℚ × ℚ × ℚ) × DataFrame :=
  (corrParts (df.numCol "area") (df.numCol "price"), df)

/-! ### Visualizer (`plot_area_vs_price`, lines 102-118) -/

/-- A rendered scatter plot: the plotted series, axis labels and title. -/
structure PlotImage where
  xs : NumCol
  ys : NumCol
  xlabel : String
  ylabel : String
  title : String
deriving DecidableEq, Repr

/-- The figure rendered by `plot_area_vs_price`. -/
def mkPlot (df : DataFrame) : PlotImage :=
  ⟨df.numCol "area", df.numCol "price", "Area (sq ft)", "Price",
    "House Area vs Price"⟩

/-- Embeds `plot_area_vs_price`: renders the figure, writes it to
`savePath` when given (overwriting), and returns the table as left behind
together with the image store. -/
def plot_area_vs_price (df : DataFrame) (savePath : Option String)
    (imgStore : String → Option PlotImage) :
    DataFrame × (String → Option PlotImage) :=
  match savePath with
  | some p => (df, fun q => if q = p then some (mkPlot df) else imgStore q)
  | none => (df, imgStore)

/-! ### Orchestrator (`main`, lines 124-157) -/

/-- Failure kinds of a run, per the spec's error taxonomy. -/
inductive RunError where
  | notFound : RunError
  | parseError : RunError
  | schemaError : List String → RunError
deriving DecidableEq, Repr

/-- One piece of report output produced by `main`, in print order. -/
inductive Event where
  | overview : Overview → Event
  | q1 : List (ℚ × Option ℚ) → Event
  | q2 : Option ℚ × Option ℚ × Option ℚ → Event
  | corrOut : Option (ℚ × ℚ × ℚ) → Event
  | plotSaved : String → Event
deriving DecidableEq, Repr

/-- The kind of an output event, forgetting its payload. -/
inductive Tag where
  | overview : Tag
  | q1 : Tag
  | q2 : Tag
  | corrOut : Tag
  | plotSaved : Tag
deriving DecidableEq, Repr

/-- Tag of an event. -/
def Event.tag : Event → Tag
  | Event.overview _ => Tag.overview
  | Event.q1 _ => Tag.q1
  | Event.q2 _ => Tag.q2
  | Event.corrOut _ => Tag.corrOut
  | Event.plotSaved _ => Tag.plotSaved

/-- The required columns passed to `validate_columns` in `main` (line 127). -/
def requiredColumns : List String :=
  ["bedrooms", "price", "airconditioning", "area"]

/-- Embeds `main` (lines 124-157): load, validate, then print the overview,
the grouped averages, the comparison, the correlation, and save the plot —
in that order. An uncaught Loader/Validator exception aborts the run before
any output. The result is the ordered report output and the abort cause,
if any. -/
def main (fs : String → Option CSVFile) : List Event × Option RunError :=
  match load_data fs DATA_FILE with
  | Except.error LoadError.notFound => ([], some RunError.notFound)
  | Except.error LoadError.parseError => ([], some RunError.parseError)
  | Except.ok df =>
    match validate_columns df requiredColumns with
    | Except.error missing => ([], some (RunError.schemaError missing))
    | Except.ok _ =>
      ([Event.overview (mkOverview df),
        Event.q1 (avg_price_by_bedrooms (df.numCol "bedrooms") (df.numCol "price")),
        Event.q2 (compare_air_conditioning (df.getCol "airconditioning") (df.numCol "price")),
        Event.corrOut (corrParts (df.numCol "area") (df.numCol "price")),
        Event.plotSaved FIGURE_FILE], none)

/-! ### Concrete data for witnesses -/

/-- A table whose columns lack `price` and `airconditioning`. -/
def dfMissingPrice : DataFrame :=
  ⟨[("bedrooms", []), ("area", [])]⟩

/-- A well-formed one-column, one-row CSV file. -/
def csvTiny : CSVFile :=
  ⟨["price"], [["100"]]⟩

/-- The valid (non-missing) values of the value column within the group of
key `k`. -/
def groupValid (g v : NumCol) (k : ℚ) : List ℚ :=
  (groupPrices g v k).filterMap id

/-- The bedrooms column of the spec's grouped-average scenario. -/
def bedrooms₀ : NumCol := [some 2, some 2, some 3]

/-- The price column of the spec's grouped-average scenario. -/
def price₀ : NumCol := [some 100, some 200, some 300]

/-- The airconditioning column of the spec's comparison scenario. -/
def acFlags₀ : List Value := [Value.str "yes", Value.str "no", Value.str "yes"]

/-- The price column of the spec's comparison scenario. -/
def acPrices₀ : NumCol := [some 100, some 50, some 300]

/-! ## Theorems -/

/-- Selecting by an if-condition on the first component is the filter by
that condition followed by the second projection. -/
theorem filterMap_if_snd {α β : Type} [DecidableEq α] (l : List (α × β)) (w : α) :
    l.filterMap (fun p => if p.1 = w then some p.2 else none) =
      (l.filter (fun p => decide (p.1 = w))).map Prod.snd := by
  induction l with
  | nil => rfl
  | cons x t ih =>
    by_cases h : x.1 = w <;> simp [h, ih]

/-- C5: the validator succeeds iff every required column is present, and a
failure carries exactly the missing column names — all of them. -/
theorem validate_columns_spec (df : DataFrame) (required : List String) :
    (validate_columns df required = Except.ok () ↔
      ∀ c ∈ required, c ∈ df.columns) ∧
    (∀ missing, validate_columns df required = Except.error missing →
      ∀ c, c ∈ missing ↔ (c ∈ required ∧ c ∉ df.columns)) := by
  constructor
  · simp only [validate_columns]
    split_ifs with h
    · rw [List.isEmpty_iff, List.filter_eq_nil_iff] at h
      simp only [decide_eq_true_eq] at h
      simpa using fun c hc => not_not.mp (h c hc)
    · rw [List.isEmpty_iff, List.filter_eq_nil_iff] at h
      push_neg at h
      obtain ⟨c, hc, hdec⟩ := h
      simp only [decide_eq_true_eq, not_not] at hdec
      simp only [reduceCtorEq, false_iff, not_forall]
      exact ⟨c, hc, hdec⟩
  · intro missing hm c
    simp only [validate_columns] at hm
    split_ifs at hm with h
    cases hm
    simp [List.mem_filter]

/-- C5 witness: with columns `bedrooms, area` only, the failure payload
names `price` (together with `airconditioning`), matching the spec
scenario. -/
theorem validate_columns_spec_witness :
    "price" ∈ ["price", "airconditioning"] ↔
      ("price" ∈ requiredColumns ∧ "price" ∉ dfMissingPrice.columns) :=
  (validate_columns_spec dfMissingPrice requiredColumns).2
    ["price", "airconditioning"] (by rfl) "price"

/-- C9: the missing names reported by the validator occur in required-list
order (the payload is a sublist of `required`), a missing name is reported
once per occurrence in `required`, and present columns are never
reported. -/
theorem validate_columns_order (df : DataFrame) (required missing : List String)
    (hm : validate_columns df required = Except.error missing) :
    missing.Sublist required ∧
    (∀ c, c ∉ df.columns → missing.count c = required.count c) ∧
    (∀ c ∈ df.columns, c ∉ missing) := by
  simp only [validate_columns] at hm
  split_ifs at hm with h
  cases hm
  refine ⟨List.filter_sublist required, fun c hc => ?_, fun c hc hmem => ?_⟩
  · exact List.count_filter (by simpa using hc)
  · rw [List.mem_filter] at hmem
    exact (by simpa using hmem.2 : c ∉ df.columns) hc

/-- C9 witness: on the concrete table the reported names keep the order of
the required list. -/
theorem validate_columns_order_witness :
    (["price", "airconditioning"] : List String).Sublist requiredColumns :=
  (validate_columns_order dfMissingPrice requiredColumns
    ["price", "airconditioning"] (by rfl)).1

/-- C6: loading fails with `NotFoundError` exactly when the path is absent,
and an existing file of well-formed delimited rows loads into a table
without error. -/
theorem load_data_spec (fs : String → Option CSVFile) (path : String) :
    (fs path = none → load_data fs path = Except.error LoadError.notFound) ∧
    (∀ f, fs path = some f → (∀ r ∈ f.rows, r.length = f.header.length) →
      ∃ df, load_data fs path = Except.ok df) := by
  constructor
  · intro h
    unfold load_data
    rw [h]
  · intro f hf hwf
    have hld : load_data fs path = read_csv f := by
      unfold load_data
      rw [hf]
    rw [hld]
    unfold read_csv
    rw [if_pos (by simpa [List.all_eq_true] using hwf)]
    exact ⟨_, rfl⟩

/-- C6 witness: an empty file system fails with `NotFoundError`; a
well-formed concrete file loads successfully. -/
theorem load_data_spec_witness :
    load_data (fun _ => none) DATA_FILE = Except.error LoadError.notFound ∧
    ∃ df, load_data (fun _ => some csvTiny) DATA_FILE = Except.ok df :=
  ⟨(load_data_spec (fun _ => none) DATA_FILE).1 rfl,
    (load_data_spec (fun _ => some csvTiny) DATA_FILE).2 csvTiny rfl
      (by intro r hr; simp [csvTiny] at hr; simp [hr, csvTiny])⟩

/-- C7: no operation mutates the table: the reporter, the three analysis
steps, and the visualizer all return the table exactly as given. -/
theorem table_not_mutated (df : DataFrame) (sp : Option String)
    (imgStore : String → Option PlotImage) :
    (print_dataset_overview df).2 = df ∧
    (avg_step df).2 = df ∧
    (compare_step df).2 = df ∧
    (corr_step df).2 = df ∧
    (plot_area_vs_price df sp imgStore).1 = df := by
  refine ⟨rfl, rfl, rfl, rfl, ?_⟩
  cases sp <;> rfl

/-- C8: a run aborts with no report output on any Loader/Validator failure,
succeeds exactly when loading and validation succeed, and then emits the
overview, grouped averages, comparison, correlation, and plot, in that
order. -/
theorem main_order_spec (fs : String → Option CSVFile) :
    (∀ e, (main fs).2 = some e → (main fs).1 = []) ∧
    ((main fs).2 = none →
      (main fs).1.map Event.tag =
        [Tag.overview, Tag.q1, Tag.q2, Tag.corrOut, Tag.plotSaved]) ∧
    ((main fs).2 = none ↔
      ∃ df, load_data fs DATA_FILE = Except.ok df ∧
        validate_columns df requiredColumns = Except.ok ()) := by
  unfold main
  cases hl : load_data fs DATA_FILE with
  | error e => cases e <;> simp [hl]
  | ok df =>
    cases hv : validate_columns df requiredColumns with
    | error m => simp [hl, hv]
    | ok u =>
      cases u
      simp [hl, hv, Event.tag]

/-- C8 witness: with no input file the run aborts having produced no
output. -/
theorem main_order_spec_witness :
    (main (fun _ => none)).1 = [] :=
  (main_order_spec (fun _ => none)).1 RunError.notFound rfl

/-- C10: each analysis result is a function of the table contents alone:
equal inputs give equal grouped averages, comparison triples, and
correlation values. -/
theorem analysis_deterministic (b₁ p₁ a₁ : NumCol) (f₁ : List Value)
    (b₂ p₂ a₂ : NumCol) (f₂ : List Value)
    (hb : b₁ = b₂) (hp : p₁ = p₂) (hf : f₁ = f₂) (ha : a₁ = a₂) :
    avg_price_by_bedrooms b₁ p₁ = avg_price_by_bedrooms b₂ p₂ ∧
    compare_air_conditioning f₁ p₁ = compare_air_conditioning f₂ p₂ ∧
    area_price_correlation a₁ p₁ = area_price_correlation a₂ p₂ := by
  subst hb hp hf ha
  exact ⟨rfl, rfl, rfl⟩

/-- C10 witness: determinism instantiated on a concrete table. -/
theorem analysis_deterministic_witness :
    avg_price_by_bedrooms [some 1] [some 2] = avg_price_by_bedrooms [some 1] [some 2] ∧
    compare_air_conditioning [Value.str "yes"] [some 2] =
      compare_air_conditioning [Value.str "yes"] [some 2] ∧
    area_price_correlation [some 3] [some 2] = area_price_correlation [some 3] [some 2] :=
  analysis_deterministic [some 1] [some 2] [some 3] [Value.str "yes"]
    [some 1] [some 2] [some 3] [Value.str "yes"] rfl rfl rfl rfl

/-- C1: the grouped average has as keys exactly the distinct non-missing
group values, each once, sorted ascending; each group's value is the mean
of the valid prices of that group, and a group with no valid price yields
`none` (NaN), not an error. -/
theorem grouped_average_spec (b p : NumCol) :
    List.Sorted (· ≤ ·) ((avg_price_by_bedrooms b p).map Prod.fst) ∧
    ((avg_price_by_bedrooms b p).map Prod.fst).Nodup ∧
    (∀ k : ℚ, k ∈ (avg_price_by_bedrooms b p).map Prod.fst ↔ some k ∈ b) ∧
    (∀ k v, (k, v) ∈ avg_price_by_bedrooms b p →
      (groupValid b p k = [] → v = none) ∧
      (groupValid b p k ≠ [] →
        v = some ((groupValid b p k).sum / ((groupValid b p k).length : ℚ)))) := by
  have hfst : (avg_price_by_bedrooms b p).map Prod.fst = groupKeys b := by
    rw [avg_price_by_bedrooms, List.map_map]
    have hid : (Prod.fst ∘ fun k : ℚ =>
        (k, seriesMean (groupPrices b p k))) = id := rfl
    rw [hid, List.map_id]
  refine ⟨?_, ?_, ?_, ?_⟩
  · rw [hfst]
    exact Finset.sort_sorted _ _
  · rw [hfst]
    exact Finset.sort_nodup _ _
  · intro k
    rw [hfst]
    simp [groupKeys, Finset.mem_sort, List.mem_filterMap]
  · intro k v hm
    rw [avg_price_by_bedrooms] at hm
    obtain ⟨a, hka, heq⟩ := List.mem_map.mp hm
    cases heq
    constructor
    · intro h0
      have h0l : List.filterMap id (groupPrices b p k) = [] := h0
      simp only [seriesMean, h0l]
      rfl
    · intro hne
      have hlen : ¬(List.filterMap id (groupPrices b p k)).length = 0 := by
        simpa [groupValid, List.length_eq_zero] using hne
      simp only [seriesMean, groupValid]
      rw [if_neg hlen]

/-- C1 witness: on the spec scenario (bedrooms 2,2,3 with prices
100,200,300) the entry for key 2 carries the mean of its group. -/
theorem grouped_average_witness :
    some (150 : ℚ) =
      some ((groupValid bedrooms₀ price₀ 2).sum /
        ((groupValid bedrooms₀ price₀ 2).length : ℚ)) := by
  have hkeys : groupKeys bedrooms₀ = [2, 3] := by
    have ht : (bedrooms₀.filterMap id).toFinset = ({2, 3} : Finset ℚ) := by
      simp [bedrooms₀]
    have h1 : Finset.sort (· ≤ ·) ({2, 3} : Finset ℚ) =
        2 :: Finset.sort (· ≤ ·) ({3} : Finset ℚ) :=
      Finset.sort_insert _ (by intro x hx; simp at hx; norm_num [hx]) (by norm_num)
    rw [groupKeys, ht, h1, Finset.sort_singleton]
  have hgp : groupPrices bedrooms₀ price₀ 2 = [some 100, some 200] := by decide
  have hfm : List.filterMap id [some (100 : ℚ), some 200] = [100, 200] := by decide
  have hsm : seriesMean [some (100 : ℚ), some 200] = some 150 := by
    simp only [seriesMean, hfm]
    norm_num
  have hmem : ((2 : ℚ), some (150 : ℚ)) ∈ avg_price_by_bedrooms bedrooms₀ price₀ := by
    rw [avg_price_by_bedrooms, hkeys]
    simp only [List.map_cons, List.map_nil, hgp, hsm]
    exact List.mem_cons_self _ _
  exact ((grouped_average_spec bedrooms₀ price₀).2.2.2 2 (some 150) hmem).2
    (by rw [groupValid, hgp]; decide)

/-- C2: the comparison triple is (mean over the rows whose flag is exactly
the true label, mean over those with the false label, first minus second);
the selected rows are exactly the filter on the flag value — any other or
missing flag is excluded — and the third component is the difference
whenever both means are defined. -/
theorem compare_categories_spec (flag : List Value) (price : NumCol) :
    (compare_air_conditioning flag price).1 =
      seriesMean (selectPrices flag price "yes") ∧
    (compare_air_conditioning flag price).2.1 =
      seriesMean (selectPrices flag price "no") ∧
    (∀ label, selectPrices flag price label =
      ((flag.zip price).filter (fun q => decide (q.1 = Value.str label))).map
        Prod.snd) ∧
    (∀ x y, (compare_air_conditioning flag price).1 = some x →
      (compare_air_conditioning flag price).2.1 = some y →
      (compare_air_conditioning flag price).2.2 = some (x - y)) := by
  refine ⟨rfl, rfl, fun label => filterMap_if_snd _ _, ?_⟩
  intro x y hx hy
  simp only [compare_air_conditioning] at hx hy ⊢
  rw [hx, hy]
  rfl

/-- C2 witness: on the spec scenario (flags yes,no,yes with prices
100,50,300) the difference is 200 − 50. -/
theorem compare_categories_witness :
    (compare_air_conditioning acFlags₀ acPrices₀).2.2 = some ((200 : ℚ) - 50) := by
  have hyes : selectPrices acFlags₀ acPrices₀ "yes" = [some 100, some 300] := by
    decide
  have hno : selectPrices acFlags₀ acPrices₀ "no" = [some 50] := by decide
  have hfy : List.filterMap id [some (100 : ℚ), some 300] = [100, 300] := by decide
  have hfn : List.filterMap id [some (50 : ℚ)] = [50] := by decide
  refine (compare_categories_spec acFlags₀ acPrices₀).2.2.2 200 50 ?_ ?_
  · show seriesMean (selectPrices acFlags₀ acPrices₀ "yes") = some 200
    rw [hyes]
    simp only [seriesMean, hfy]
    norm_num
  · show seriesMean (selectPrices acFlags₀ acPrices₀ "no") = some 50
    rw [hno]
    simp only [seriesMean, hfn]
    norm_num

/-- The x column of the correlation witness data. -/
def corrX₀ : NumCol := [some 1, some 3]

/-- The y column of the correlation witness data. -/
def corrY₀ : NumCol := [some 2, some 6]

/-- The x column of the symmetry/bound witness data (with a missing row). -/
def corrX₁ : NumCol := [some 0, some 1, none, some 5]

/-- The y column of the symmetry/bound witness data (with a missing row). -/
def corrY₁ : NumCol := [some 0, some 1, some 7, none]

/-- Matching on both components being present equals filtering on presence
and extracting the values. -/
theorem filterMap_both_some (l : List (Option ℚ × Option ℚ)) :
    l.filterMap (fun p =>
      match p with
      | (some x, some y) => some (x, y)
      | _ => none) =
      (l.filter (fun p => p.1.isSome && p.2.isSome)).map
        (fun p => (p.1.getD 0, p.2.getD 0)) := by
  induction l with
  | nil => rfl
  | cons q t ih =>
    obtain ⟨x, y⟩ := q
    cases x <;> cases y <;> simp [List.filterMap_cons, ih]

/-- C3: the correlation is computed over exactly the pairwise-complete rows;
it is NaN (`none`) precisely when there are fewer than 2 valid pairs or
either coordinate has zero variance — returned, not raised — and otherwise
it is the Pearson coefficient over those rows. -/
theorem correlation_nan_spec (a b : NumCol) :
    validPairs a b =
      ((a.zip b).filter (fun p => p.1.isSome && p.2.isSome)).map
        (fun p => (p.1.getD 0, p.2.getD 0)) ∧
    (area_price_correlation a b = none ↔
      (validPairs a b).length < 2 ∨
        sumSqDev ((validPairs a b).map Prod.fst) = 0 ∨
        sumSqDev ((validPairs a b).map Prod.snd) = 0) ∧
    (∀ r, area_price_correlation a b = some r →
      r = (sumCrossDev (validPairs a b) : ℝ) /
        (Real.sqrt ((sumSqDev ((validPairs a b).map Prod.fst) : ℚ) : ℝ) *
          Real.sqrt ((sumSqDev ((validPairs a b).map Prod.snd) : ℚ) : ℝ))) := by
  refine ⟨filterMap_both_some _, ?_, ?_⟩
  · rw [area_price_correlation, Option.map_eq_none', corrParts]
    split_ifs with h
    · simpa using h
    · simpa using h
  · intro r hr
    rw [area_price_correlation, corrParts] at hr
    split_ifs at hr with h
    · rw [Option.map_none'] at hr
      cases hr
    · rw [Option.map_some'] at hr
      cases hr
      rfl

/-- C3 witness: on pairwise-complete data (1,2) and (3,6) the correlation
is defined and equals the Pearson formula, here 1. -/
theorem correlation_nan_witness :
    (1 : ℝ) = (sumCrossDev (validPairs corrX₀ corrY₀) : ℝ) /
      (Real.sqrt ((sumSqDev ((validPairs corrX₀ corrY₀).map Prod.fst) : ℚ) : ℝ) *
        Real.sqrt ((sumSqDev ((validPairs corrX₀ corrY₀).map Prod.snd) : ℚ) : ℝ)) := by
  have hvp : validPairs corrX₀ corrY₀ = [(1, 2), (3, 6)] := by decide
  have hparts : corrParts corrX₀ corrY₀ = some (4, 2, 8) := by
    rw [corrParts, hvp]
    norm_num [sumSqDev, sumCrossDev, listMean]
  have hsome : area_price_correlation corrX₀ corrY₀ = some 1 := by
    rw [area_price_correlation, hparts, Option.map_some', Option.some.injEq]
    push_cast
    rw [show Real.sqrt 2 * Real.sqrt 8 = 4 by
      rw [← Real.sqrt_mul (by norm_num : (0:ℝ) ≤ 2)]
      rw [show (2:ℝ) * 8 = 4 ^ 2 by norm_num]
      exact Real.sqrt_sq (by norm_num)]
    norm_num
  exact (correlation_nan_spec corrX₀ corrY₀).2.2 1 hsome

/-- Cauchy–Schwarz for list sums, obtained from the finset version via
`List.ofFn`. -/
theorem list_inner_sq_le {α : Type} (l : List α) (f g : α → ℚ) :
    ((l.map (fun x => f x * g x)).sum) ^ 2 ≤
      ((l.map (fun x => f x ^ 2)).sum) * ((l.map (fun x => g x ^ 2)).sum) := by
  have key : ∀ u : α → ℚ, (l.map u).sum = ∑ i : Fin l.length, u (l.get i) := by
    intro u
    conv_lhs => rw [← List.ofFn_get l]
    rw [List.map_ofFn, Fin.sum_ofFn]
    rfl
  rw [key, key, key]
  exact Finset.sum_mul_sq_le_sq_mul_sq Finset.univ
    (fun i => f (l.get i)) (fun i => g (l.get i))

/-- Cauchy–Schwarz for the deviation sums of a list of pairs. -/
theorem crossdev_sq_le (ps : List (ℚ × ℚ)) :
    sumCrossDev ps ^ 2 ≤
      sumSqDev (ps.map Prod.fst) * sumSqDev (ps.map Prod.snd) := by
  have hx : sumSqDev (ps.map Prod.fst) =
      (ps.map (fun p => (p.1 - listMean (ps.map Prod.fst)) ^ 2)).sum := by
    rw [sumSqDev, List.map_map]
    rfl
  have hy : sumSqDev (ps.map Prod.snd) =
      (ps.map (fun p => (p.2 - listMean (ps.map Prod.snd)) ^ 2)).sum := by
    rw [sumSqDev, List.map_map]
    rfl
  rw [hx, hy, sumCrossDev]
  exact list_inner_sq_le ps (fun p => p.1 - listMean (ps.map Prod.fst))
    (fun p => p.2 - listMean (ps.map Prod.snd))

/-- A sum of squared deviations is nonnegative. -/
theorem sumSqDev_nonneg (l : List ℚ) : 0 ≤ sumSqDev l := by
  rw [sumSqDev]
  refine List.sum_nonneg fun x hx => ?_
  obtain ⟨y, _, hxy⟩ := List.mem_map.mp hx
  rw [← hxy]
  exact sq_nonneg _

/-- Swapping the argument order swaps the valid pairs componentwise. -/
theorem validPairs_swap (a b : NumCol) :
    validPairs b a = (validPairs a b).map Prod.swap := by
  rw [validPairs, validPairs, ← List.zip_swap a b, List.filterMap_map,
    List.map_filterMap]
  congr 1
  funext p
  obtain ⟨x, y⟩ := p
  cases x <;> cases y <;> rfl

/-- First components of the swapped pairs are the original second ones. -/
theorem map_swap_fst (ps : List (ℚ × ℚ)) :
    (ps.map Prod.swap).map Prod.fst = ps.map Prod.snd := by
  rw [List.map_map]
  rfl

/-- Second components of the swapped pairs are the original first ones. -/
theorem map_swap_snd (ps : List (ℚ × ℚ)) :
    (ps.map Prod.swap).map Prod.snd = ps.map Prod.fst := by
  rw [List.map_map]
  rfl

/-- The cross-deviation sum is invariant under swapping the pairs. -/
theorem sumCrossDev_swap (ps : List (ℚ × ℚ)) :
    sumCrossDev (ps.map Prod.swap) = sumCrossDev ps := by
  rw [sumCrossDev, sumCrossDev, map_swap_fst, map_swap_snd, List.map_map]
  refine congrArg List.sum (List.map_congr_left fun p hp => ?_)
  simp only [Function.comp_apply, Prod.fst_swap, Prod.snd_swap]
  ring

/-- Correlation data of the swapped columns: same cross sum, the two
squared-deviation sums exchanged. -/
theorem corrParts_swap (a b : NumCol) :
    corrParts b a = (corrParts a b).map (fun t => (t.1, t.2.2, t.2.1)) := by
  rw [corrParts, corrParts, validPairs_swap a b, map_swap_fst, map_swap_snd,
    sumCrossDev_swap, List.length_map]
  by_cases h : (validPairs a b).length < 2 ∨
      sumSqDev ((validPairs a b).map Prod.fst) = 0 ∨
      sumSqDev ((validPairs a b).map Prod.snd) = 0
  · rw [if_pos (by tauto), if_pos h]
    rfl
  · rw [if_neg (by tauto), if_neg h]
    rfl

/-- C4: correlation is symmetric in its two columns, and whenever it is
defined its value lies in [-1, 1]. -/
theorem correlation_symm_bounded (a b : NumCol) :
    area_price_correlation a b = area_price_correlation b a ∧
    ∀ r, area_price_correlation a b = some r → -1 ≤ r ∧ r ≤ 1 := by
  constructor
  · rw [area_price_correlation, area_price_correlation, corrParts_swap a b]
    cases hcp : corrParts a b with
    | none => rfl
    | some t =>
      rw [Option.map_some', Option.map_some', Option.map_some',
        Option.some.injEq]
      exact congrArg (fun d => ((t.1 : ℚ) : ℝ) / d) (mul_comm _ _)
  · intro r hr
    rw [area_price_correlation] at hr
    cases hcp : corrParts a b with
    | none =>
      rw [hcp, Option.map_none'] at hr
      cases hr
    | some t =>
      rw [hcp, Option.map_some'] at hr
      cases hr
      rw [corrParts] at hcp
      split_ifs at hcp with h
      cases hcp
      push_neg at h
      obtain ⟨_, hsxx, hsyy⟩ := h
      have hx0 : (0 : ℚ) < sumSqDev ((validPairs a b).map Prod.fst) :=
        lt_of_le_of_ne (sumSqDev_nonneg _) (Ne.symm hsxx)
      have hy0 : (0 : ℚ) < sumSqDev ((validPairs a b).map Prod.snd) :=
        lt_of_le_of_ne (sumSqDev_nonneg _) (Ne.symm hsyy)
      have hx0R : (0 : ℝ) < ((sumSqDev ((validPairs a b).map Prod.fst) : ℚ) : ℝ) := by
        exact_mod_cast hx0
      have hy0R : (0 : ℝ) < ((sumSqDev ((validPairs a b).map Prod.snd) : ℚ) : ℝ) := by
        exact_mod_cast hy0
      have hcsR : ((sumCrossDev (validPairs a b) : ℚ) : ℝ) ^ 2 ≤
          ((sumSqDev ((validPairs a b).map Prod.fst) : ℚ) : ℝ) *
            ((sumSqDev ((validPairs a b).map Prod.snd) : ℚ) : ℝ) := by
        exact_mod_cast crossdev_sq_le (validPairs a b)
      have hdpos : 0 <
          Real.sqrt ((sumSqDev ((validPairs a b).map Prod.fst) : ℚ) : ℝ) *
            Real.sqrt ((sumSqDev ((validPairs a b).map Prod.snd) : ℚ) : ℝ) :=
        mul_pos (Real.sqrt_pos.mpr hx0R) (Real.sqrt_pos.mpr hy0R)
      have habs : |((sumCrossDev (validPairs a b) : ℚ) : ℝ)| ≤
          Real.sqrt ((sumSqDev ((validPairs a b).map Prod.fst) : ℚ) : ℝ) *
            Real.sqrt ((sumSqDev ((validPairs a b).map Prod.snd) : ℚ) : ℝ) := by
        rw [← Real.sqrt_mul hx0R.le, ← Real.sqrt_sq_eq_abs]
        exact Real.sqrt_le_sqrt hcsR
      have hgoal : |((sumCrossDev (validPairs a b) : ℚ) : ℝ) /
          (Real.sqrt ((sumSqDev ((validPairs a b).map Prod.fst) : ℚ) : ℝ) *
            Real.sqrt ((sumSqDev ((validPairs a b).map Prod.snd) : ℚ) : ℝ))| ≤ 1 := by
        rw [abs_div, abs_of_pos hdpos, div_le_one hdpos]
        exact habs
      exact abs_le.mp hgoal

/-- C4 witness: on data with pairwise-complete pairs (0,0) and (1,1) the
correlation evaluates to 1, which lies in [-1, 1]. -/
theorem correlation_symm_bounded_witness :
    area_price_correlation corrX₁ corrY₁ = some 1 ∧
      -1 ≤ (1 : ℝ) ∧ (1 : ℝ) ≤ 1 := by
  have hvp : validPairs corrX₁ corrY₁ = [(0, 0), (1, 1)] := by decide
  have hparts : corrParts corrX₁ corrY₁ = some (1/2, 1/2, 1/2) := by
    rw [corrParts, hvp]
    norm_num [sumSqDev, sumCrossDev, listMean]
  have hsome : area_price_correlation corrX₁ corrY₁ = some 1 := by
    rw [area_price_correlation, hparts, Option.map_some', Option.some.injEq]
    push_cast
    rw [Real.mul_self_sqrt (by norm_num : (0:ℝ) ≤ 1/2)]
    norm_num
  exact ⟨hsome, (correlation_symm_bounded corrX₁ corrY₁).2 1 hsome⟩

end Housing
